import Mathlib

/-!
Shallow embedding of `src/server-full-test.js`, a WebSocket volume-monitoring
server for six fixed devices.  JavaScript numbers are modelled as `ℚ` with an
explicit `NaN` (`Option ℚ`, `none` = NaN, or the `JSVal.nan` constructor);
JSON-delivered field values are modelled by `JSVal`.  Stateful handlers become
explicit state-passing functions; a `Bool` "threw" component records whether a
handler raised a runtime exception (caught by the `ws.on('message')`
try/catch).
-/

namespace VolMon

/-- JavaScript values as they can appear in parsed JSON message fields
(plus `nan`, reachable through arithmetic on non-numeric fields).
Objects and arrays are not modelled; no claim depends on them. -/
inductive JSVal where
  | num (q : ℚ)
  | str (s : String)
  | jbool (b : Bool)
  | jnull
  | undef
  | nan
  deriving Repr, DecidableEq

/-- JavaScript truthiness: `0`, `""`, `false`, `null`, `undefined`, `NaN`
are falsy, everything else (among modelled values) is truthy. -/
def truthy : JSVal → Bool
  | .num q => decide (q ≠ 0)
  | .str s => decide (s ≠ "")
  | .jbool b => b
  | .jnull => false
  | .undef => false
  | .nan => false

/-- Value of a digit string read in base 10. -/
def digitsToNat (cs : List Char) : ℕ :=
  cs.foldl (fun a c => 10 * a + (c.toNat - '0'.toNat)) 0

/-- A non-empty all-digit character list parsed as a natural number;
`none` otherwise. -/
def parseNatDigits (cs : List Char) : Option ℕ :=
  if cs = [] then none
  else if cs.all Char.isDigit then some (digitsToNat cs) else none

/-- Split a character list at the first dot, returning the part before it
and (when a dot occurs) the part after it. -/
def splitAtDot : List Char → List Char × Option (List Char)
  | [] => ([], none)
  | c :: rest =>
    if c = '.' then ([], some rest)
    else
      let (a, b) := splitAtDot rest
      (c :: a, b)

/-- An unsigned decimal literal (`digits`, `digits.digits`, `.digits`,
`digits.`) parsed as a rational; `none` (NaN) otherwise.  This models the
plain-decimal fragment of the ECMAScript string-numeric-literal grammar;
exponent forms are not modelled (no claim exercises them). -/
def parseDecimalAll (cs : List Char) : Option ℚ :=
  match splitAtDot cs with
  | (ip, none) => (parseNatDigits ip).map (fun n => (n : ℚ))
  | (ip, some fp) =>
    if ip = [] && fp = [] then none
    else if ip.all Char.isDigit && fp.all Char.isDigit then
      some ((digitsToNat ip : ℚ) + (digitsToNat fp : ℚ) / (10 : ℚ) ^ fp.length)
    else none

/-- ECMAScript `ToNumber` on a string: surrounding spaces are ignored, the
empty string is `0`, otherwise the whole trimmed string must be a signed
decimal literal; `none` is NaN. -/
def strToNumber (s : String) : Option ℚ :=
  let cs := ((s.toList.dropWhile (· = ' ')).reverse.dropWhile (· = ' ')).reverse
  match cs with
  | [] => some 0
  | '-' :: rest => (parseDecimalAll rest).map Neg.neg
  | '+' :: rest => parseDecimalAll rest
  | _ => parseDecimalAll cs

/-- ECMAScript `ToNumber` on modelled values; `none` is NaN. -/
def toNumber : JSVal → Option ℚ
  | .num q => some q
  | .str s => strToNumber s
  | .jbool b => some (if b then 1 else 0)
  | .jnull => some 0
  | .undef => none
  | .nan => none

/-- JavaScript `<` for the cases arising in this program (one operand is
always a number literal, so the comparison is numeric); any comparison
involving NaN is false. -/
def jsLt (a b : JSVal) : Bool :=
  match toNumber a, toNumber b with
  | some x, some y => decide (x < y)
  | _, _ => false

/-- JavaScript `>`. -/
def jsGt (a b : JSVal) : Bool := jsLt b a

/-- Truncation toward zero, the integer part taken by `parseInt` on a
plain-decimal rendering of a number. -/
def ratTrunc (q : ℚ) : ℤ := if 0 ≤ q then ⌊q⌋ else -⌊-q⌋

/-- Signed leading-digit prefix of a character list as an integer;
`none` (NaN) when no digits start it.  Trailing garbage is ignored,
as with JavaScript `parseInt`. -/
def parseIntPrefix (cs : List Char) : Option ℤ :=
  match cs with
  | '-' :: rest =>
    let ds := rest.takeWhile Char.isDigit
    if ds = [] then none else some (-(digitsToNat ds : ℤ))
  | '+' :: rest =>
    let ds := rest.takeWhile Char.isDigit
    if ds = [] then none else some ((digitsToNat ds : ℤ))
  | _ =>
    let ds := cs.takeWhile Char.isDigit
    if ds = [] then none else some ((digitsToNat ds : ℤ))

/-- JavaScript `parseInt` (radix 10) on modelled values; `none` is NaN.
On numbers it truncates toward zero, which matches `parseInt(String(q))`
for numbers rendered in plain decimal notation (all values this program
handles); exponent renderings of magnitudes at or above 10^21 are not
modelled. -/
def jsParseInt : JSVal → Option ℤ
  | .num q => some (ratTrunc q)
  | .str s => parseIntPrefix (s.toList.dropWhile (· = ' '))
  | _ => none

/-- Signed leading decimal prefix of a character list as a rational;
`none` (NaN) when no digits start it.  Models `parseFloat`'s
longest-numeric-prefix rule on plain decimals. -/
def parseFloatPrefix (cs : List Char) : Option ℚ :=
  let (neg, cs1) :=
    match cs with
    | '-' :: r => (true, r)
    | '+' :: r => (false, r)
    | _ => (false, cs)
  let ip := cs1.takeWhile Char.isDigit
  let rest := cs1.dropWhile Char.isDigit
  let fp :=
    match rest with
    | '.' :: r => r.takeWhile Char.isDigit
    | _ => []
  if ip = [] && fp = [] then none
  else
    let v : ℚ := (digitsToNat ip : ℚ) + (digitsToNat fp : ℚ) / (10 : ℚ) ^ fp.length
    some (if neg then -v else v)

/-- JavaScript `parseFloat` on modelled values; `none` is NaN.  On numbers it
is the identity (ToString then parse round-trips plain decimals). -/
def jsParseFloat : JSVal → Option ℚ
  | .num q => some q
  | .str s => parseFloatPrefix (s.toList.dropWhile (· = ' '))
  | _ => none

/-- `Math.max` on possibly-NaN numbers: NaN absorbs. -/
def jsMax (a b : Option ℚ) : Option ℚ :=
  match a, b with
  | some x, some y => some (Max.max x y)
  | _, _ => none

/-- `Math.min` on possibly-NaN numbers: NaN absorbs. -/
def jsMin (a b : Option ℚ) : Option ℚ :=
  match a, b with
  | some x, some y => some (Min.min x y)
  | _, _ => none

/-- `Number.prototype.toFixed(2)` followed by `parseFloat`: rounding to two
decimals, nearest, ties toward the larger value. -/
def round2 (q : ℚ) : ℚ := (⌊q * 100 + 1 / 2⌋ : ℚ) / 100

/-- `v.toFixed(2)` then `parseFloat` on a stored field value.  The outer
`none` means the call threw (`toFixed` exists only on numbers); NaN yields
`"NaN"` which parses back to NaN (inner `none`). -/
def toFixedParse : JSVal → Option (Option ℚ)
  | .num q => some (some (round2 q))
  | .nan => some none
  | _ => none

/-- `(device.avg + vol) / 2` from the console `set` command.  For numeric
`avg` this is exact; for a non-numeric `avg` the JavaScript
string-concatenation-then-division path yields NaN on every value this
program can store there, modelled as `nan`. -/
def jsAvgSet (avg : JSVal) (v : ℚ) : JSVal :=
  match avg with
  | .num a => .num ((a + v) / 2)
  | _ => .nan

/-- One entry of `deviceMap` (source lines 16-26): `vol`, `max`, `min` are
possibly-NaN numbers, `avg` is stored verbatim from inbound data so it keeps
the full `JSVal` type. -/
structure Device where
  deviceId : ℕ
  vol : Option ℚ
  avg : JSVal
  max : Option ℚ
  min : Option ℚ
  con : Bool
  lastUpdate : ℕ
  deriving Repr, DecidableEq

/-- Initial device record: `vol = 0`, `avg = 0`, `max = 0`, `min = 100`,
offline, `lastUpdate` the process start time. -/
def initDevice (i : Fin 6) (t0 : ℕ) : Device :=
  { deviceId := i.val + 1, vol := some 0, avg := .num 0, max := some 0,
    min := some 100, con := false, lastUpdate := t0 }

/-- Whole-server mutable state relevant to message handling: the six-entry
device map and the two one-shot flags. -/
structure ServerState where
  devices : Fin 6 → Device
  isTerminated : Bool
  isServerClosing : Bool

/-- State at process start: six offline devices, both flags false. -/
def initState (t0 : ℕ) : ServerState :=
  { devices := fun i => initDevice i t0, isTerminated := false, isServerClosing := false }

/-- `deviceMap.get(k)` with the map's keys being the exact number values
1..6 (SameValueZero): only the number `i` with `1 ≤ i ≤ 6` finds a device;
strings, non-integral numbers and all other values miss. -/
def mapGetDevice : JSVal → Option (Fin 6)
  | .num q =>
    if q = 1 then some 0
    else if q = 2 then some 1
    else if q = 3 then some 2
    else if q = 4 then some 3
    else if q = 5 then some 4
    else if q = 6 then some 5
    else none
  | _ => none

/-- A rounded per-device statistics record from `handleTerminateSignal`. -/
structure Stat where
  deviceId : ℕ
  max : Option ℚ
  avg : Option ℚ
  min : Option ℚ
  deriving Repr, DecidableEq

/-- An application-level emission to the connected clients: the full
snapshot from `broadcast()`, the `start_monitor` signal, or the
`end_statistics` payload. -/
inductive OutMsg where
  | snapshot (devs : List Device)
  | start_monitor
  | endStatistics (data : List Stat)
  deriving Repr, DecidableEq

/-- `broadcast()` (source lines 116-131): no-op while the server is closing,
otherwise one full-table snapshot emission. -/
def broadcast (s : ServerState) : List OutMsg :=
  if s.isServerClosing then [] else [.snapshot (List.ofFn fun i => s.devices i)]

/-- `broadcastStartMonitor()` (source lines 134-145): suppressed once the
server is closing or monitoring has been terminated. -/
def broadcastStartMonitor (s : ServerState) : List OutMsg :=
  if s.isServerClosing || s.isTerminated then [] else [.start_monitor]

/-- `updateDevice(data)` (source lines 228-243).  Returns the new state,
whether the update succeeded (the function's return value), and whether it
threw: when the range guard passes but the map lookup misses, the first
field assignment `device.vol = ...` throws before any mutation. -/
def updateDevice (s : ServerState) (deviceId vol avg : JSVal) (now : ℕ) :
    ServerState × Bool × Bool :=
  if !truthy deviceId || jsLt deviceId (.num 1) || jsGt deviceId (.num 6) then
    (s, false, false)
  else
    match mapGetDevice deviceId with
    | none => (s, false, true)
    | some i =>
      let newVol := jsParseFloat vol
      let d := s.devices i
      let d' : Device :=
        { d with vol := newVol, avg := avg, max := jsMax d.max newVol,
                 min := jsMin d.min newVol, con := true, lastUpdate := now }
      ({ s with devices := Function.update s.devices i d' }, true, false)

/-- One record of the `statsData` loop in `handleTerminateSignal`:
`none` when `device.avg.toFixed(2)` throws. -/
def deviceStat (d : Device) : Option Stat :=
  (toFixedParse d.avg).map fun a =>
    { deviceId := d.deviceId, max := d.max.map round2, avg := a, min := d.min.map round2 }

/-- The `statsData` array built by the loop over devices 1..6 in
`handleTerminateSignal` (source lines 251-260); `none` when some
`avg.toFixed(2)` call throws. -/
def roundedStats (s : ServerState) : Option (List Stat) :=
  (deviceStat (s.devices 0)).bind fun a1 =>
  (deviceStat (s.devices 1)).bind fun a2 =>
  (deviceStat (s.devices 2)).bind fun a3 =>
  (deviceStat (s.devices 3)).bind fun a4 =>
  (deviceStat (s.devices 4)).bind fun a5 =>
  (deviceStat (s.devices 5)).bind fun a6 =>
  some [a1, a2, a3, a4, a5, a6]

/-- `handleTerminateSignal()` (source lines 246-271): one-shot on
`isTerminated`; the flag is set before the statistics loop, so a throw in
the loop still leaves it set and emits nothing. -/
def handleTerminateSignal (s : ServerState) : ServerState × List OutMsg × Bool :=
  if s.isTerminated then (s, [], false)
  else
    let s' := { s with isTerminated := true }
    match roundedStats s' with
    | some data => (s', [.endStatistics data], false)
    | none => (s', [], true)

/-- Parsed inbound WebSocket messages other than `terminate_process`
(which is routed to the shutdown coordinator, modelled separately by
`drainEntry`). -/
inductive Msg where
  | login (device : JSVal)
  | logout (deviceId : JSVal)
  | volume (deviceId vol avg : JSVal)
  | terminate
  | start_monitor (deviceId : JSVal)
  | unknown

/-- The `switch (data.type)` body of the message handler (source lines
167-213).  The third component records whether the branch threw. -/
def dispatch (s : ServerState) (m : Msg) (now : ℕ) : ServerState × List OutMsg × Bool :=
  match m with
  | .login dv =>
    match jsParseInt dv with
    | none => (s, [], false)
    | some n =>
      if 1 ≤ n ∧ n ≤ 6 then
        match mapGetDevice (.num (n : ℚ)) with
        | none => (s, [], true)
        | some i =>
          let d := s.devices i
          let d' := { d with con := true, lastUpdate := now }
          let s' := { s with devices := Function.update s.devices i d' }
          (s', broadcast s', false)
      else (s, [], false)
  | .logout dv =>
    match jsParseInt dv with
    | none => (s, [], false)
    | some n =>
      if 1 ≤ n ∧ n ≤ 6 then
        match mapGetDevice (.num (n : ℚ)) with
        | none => (s, [], true)
        | some i =>
          let d := s.devices i
          let d' := { d with con := false }
          let s' := { s with devices := Function.update s.devices i d' }
          (s', broadcast s', false)
      else (s, [], false)
  | .volume dv vol avg =>
    let (s', ok, threw) := updateDevice s dv vol avg now
    (s', if ok then broadcast s' else [], threw)
  | .terminate => handleTerminateSignal s
  | .start_monitor dv =>
    if jsParseInt dv = some 1 then (s, broadcastStartMonitor s, false)
    else (s, [], false)
  | .unknown => (s, [], false)

/-- The `ws.on('message')` handler for messages other than
`terminate_process` (source lines 154-217): early return while the server is
closing, then the dispatch with its try/catch — a throw is swallowed,
keeping whatever mutations preceded it. -/
def handleMessage (s : ServerState) (m : Msg) (now : ℕ) : ServerState × List OutMsg :=
  if s.isServerClosing then (s, [])
  else
    let (s', outs, _) := dispatch s m now
    (s', outs)

/-- The console `set <id> <vol>` branch of `rl.on('line')` (source lines
53-71), taken after its `parseInt`/`parseFloat` calls whose possibly-NaN
results are passed in (`none` = NaN). -/
def consoleSet (s : ServerState) (deviceId : Option ℤ) (vol : Option ℚ) (now : ℕ) :
    ServerState × List OutMsg :=
  if s.isServerClosing then (s, [])
  else
    match deviceId, vol with
    | some d, some v =>
      if h : 1 ≤ d ∧ d ≤ 6 ∧ 0 ≤ v ∧ v ≤ 100 then
        let i : Fin 6 := ⟨(d - 1).toNat, by omega⟩
        let dev := s.devices i
        let dev' : Device :=
          { dev with vol := some v, avg := jsAvgSet dev.avg v,
                     max := jsMax dev.max (some v), min := jsMin dev.min (some v),
                     con := true, lastUpdate := now }
        let s' := { s with devices := Function.update s.devices i dev' }
        (s', broadcast s')
      else (s, [])
    | _, _ => (s, [])

/-- Device timeout (ms). -/
def DEVICE_TIMEOUT : ℕ := 10000

/-- Shutdown deadline (ms). -/
def CLOSE_TIMEOUT : ℕ := 5000

/-- One tick of the 50 ms `deviceCheckInterval` sweep (source lines
80-105): skipped while closing; only online devices are inspected, each
being demoted exactly when `now - lastUpdate` is at least the timeout; one
full-snapshot broadcast when any flag flipped. -/
def sweepTick (s : ServerState) (now : ℕ) : ServerState × List OutMsg :=
  if s.isServerClosing then (s, [])
  else
    let devs' : Fin 6 → Device := fun i =>
      let d := s.devices i
      if d.con then { d with con := decide ((now : ℤ) - (d.lastUpdate : ℤ) < (DEVICE_TIMEOUT : ℤ)) }
      else d
    let statusChanged := (List.finRange 6).any fun i => (devs' i).con != (s.devices i).con
    let s' := { s with devices := devs' }
    (s', if statusChanged then broadcast s' else [])

/-- An operation the running server can perform on its state: an inbound
message, a console `set`, or a sweep tick. -/
inductive Op where
  | msg (m : Msg) (now : ℕ)
  | set (deviceId : Option ℤ) (vol : Option ℚ) (now : ℕ)
  | sweep (now : ℕ)

/-- State after one operation (outputs discarded). -/
def applyOp (s : ServerState) : Op → ServerState
  | .msg m now => (handleMessage s m now).1
  | .set d v now => (consoleSet s d v now).1
  | .sweep now => (sweepTick s now).1

/-- State after a sequence of operations. -/
def applyOps (s : ServerState) (ops : List Op) : ServerState :=
  ops.foldl applyOp s

/-- An operation whose volume payload, if any, carries a numeric `vol`
(i.e. is a reading in the spec's sense rather than NaN garbage). -/
def GoodOp : Op → Prop
  | .msg (.volume _ vol _) _ => ∃ q, jsParseFloat vol = some q
  | _ => True

/-- A reading operation with a non-negative numeric value: a network
`volume` message or a console `set` (whose own guard enforces the range). -/
def NonnegReadingOp : Op → Prop
  | .msg (.volume _ vol _) _ => ∃ q, jsParseFloat vol = some q ∧ 0 ≤ q
  | .set _ _ _ => True
  | _ => False

/-- The recorded-reading invariant for one device:
`min <= currentLevel <= max`, all three numeric. -/
def DevInv (d : Device) : Prop :=
  ∃ mn v mx, d.min = some mn ∧ d.vol = some v ∧ d.max = some mx ∧ mn ≤ v ∧ v ≤ mx

/-- State of the shutdown coordinator (`handleTerminateProcess`, source
lines 274-323): the one-shot flag, the captured client list's size, how many
of them have been counted closed, whether the deadline timer is pending and
with what delay, and whether `closeWebSocketServer()` has been invoked. -/
structure DrainState where
  isServerClosing : Bool
  intervalCleared : Bool
  capturedTotal : ℕ
  closedCount : ℕ
  timerArmed : Bool
  timerDelay : ℕ
  stopRequested : Bool
  deriving Repr, DecidableEq

/-- Coordinator state before any shutdown trigger. -/
def initDrain : DrainState :=
  { isServerClosing := false, intervalCleared := false, capturedTotal := 0,
    closedCount := 0, timerArmed := false, timerDelay := 0, stopRequested := false }

/-- `handleTerminateProcess` (source lines 274-323), with `clients` the
captured `wss.clients` readyStates (`true` = OPEN).  Re-entry is a no-op.
With an empty capture the function calls `closeWebSocketServer()` and
returns before the deadline `setTimeout`, so no timer is armed; otherwise
already-closed clients are counted immediately (invoking the stop when they
are all of them) and the deadline timer is armed for `CLOSE_TIMEOUT`. -/
def drainEntry (s : DrainState) (clients : List Bool) : DrainState :=
  if s.isServerClosing then s
  else
    let total := clients.length
    if total = 0 then
      { isServerClosing := true, intervalCleared := true, capturedTotal := 0,
        closedCount := 0, timerArmed := false, timerDelay := 0, stopRequested := true }
    else
      let preClosed := (clients.filter (fun c => !c)).length
      { isServerClosing := true, intervalCleared := true, capturedTotal := total,
        closedCount := preClosed, timerArmed := true, timerDelay := CLOSE_TIMEOUT,
        stopRequested := decide (preClosed = total) }

/-- A captured client's close/error notification during draining
(source lines 296-308). -/
def clientClosedEvent (d : DrainState) : DrainState :=
  let c := d.closedCount + 1
  { d with closedCount := c,
           stopRequested := d.stopRequested || decide (c = d.capturedTotal) }

/-- Outcome of `forceExit()`: the pending deadline timer is cleared and the
process exits with the given status. -/
structure ExitResult where
  timerCleared : Bool
  exitCode : ℕ
  deriving Repr, DecidableEq

/-- `forceExit()` (source lines 353-356): always exits with status 0. -/
def forceExit : ExitResult := { timerCleared := true, exitCode := 0 }

/-- The deadline timer firing (source lines 312-315): only possible while
armed, and then it force-exits. -/
def closeTimeoutFire (d : DrainState) : Option ExitResult :=
  if d.timerArmed then some forceExit else none

/-- `process.on('uncaughtException')` (source lines 389-392): force-exit
when already closing, otherwise `closeServer()`, i.e. entry into draining. -/
def onUncaughtException (d : DrainState) (clients : List Bool) : DrainState ⊕ ExitResult :=
  if d.isServerClosing then Sum.inr forceExit else Sum.inl (drainEntry d clients)

/-- `process.on('unhandledRejection')` (source lines 395-398): identical to
the uncaught-exception handler. -/
def onUnhandledRejection (d : DrainState) (clients : List Bool) : DrainState ⊕ ExitResult :=
  if d.isServerClosing then Sum.inr forceExit else Sum.inl (drainEntry d clients)

/-- Recognizer for `end_statistics` emissions. -/
def isEndStats : OutMsg → Bool
  | .endStatistics _ => true
  | _ => false

/-- A concrete state with every device online and last updated at 5 ms,
used to exercise the sweep. -/
def sOnline : ServerState :=
  { devices := fun i => { initDevice i 0 with con := true, lastUpdate := 5 },
    isTerminated := false, isServerClosing := false }

/-- The rounded statistics of the six freshly initialized devices. -/
def initStats : List Stat :=
  [{ deviceId := 1, max := some 0, avg := some 0, min := some 100 },
   { deviceId := 2, max := some 0, avg := some 0, min := some 100 },
   { deviceId := 3, max := some 0, avg := some 0, min := some 100 },
   { deviceId := 4, max := some 0, avg := some 0, min := some 100 },
   { deviceId := 5, max := some 0, avg := some 0, min := some 100 },
   { deviceId := 6, max := some 0, avg := some 0, min := some 100 }]

/-- A concrete state reached from the initial one by a single inbound volume
message for device 2 whose avg field is the (non-numeric) string "oops". -/
def s10 : ServerState :=
  (handleMessage (initState 0) (.volume (.num 2) (.num 10) (.str "oops")) 0).1

theorem jsParseInt_intCast (n : ℤ) : jsParseInt (.num (n : ℚ)) = some n := by
  simp only [jsParseInt, ratTrunc]
  split
  · simp
  · rw [show (-((n : ℤ) : ℚ)) = (((-n : ℤ)) : ℚ) by push_cast; ring, Int.floor_intCast]
    simp

theorem jsLt_num (a b : ℚ) : jsLt (.num a) (.num b) = decide (a < b) := rfl

theorem volumeGuard_int_fails (n : ℤ) (hn : n < 1 ∨ 6 < n) :
    (!truthy (JSVal.num (n : ℚ)) || jsLt (.num (n : ℚ)) (.num 1)
      || jsGt (.num (n : ℚ)) (.num 6)) = true := by
  rcases hn with h | h
  · by_cases h0 : n = 0
    · subst h0
      simp [truthy]
    · have h1 : ((n : ℚ) < 1) := by exact_mod_cast h
      simp [jsLt, toNumber, h1]
  · have h6 : ((6 : ℚ) < (n : ℚ)) := by exact_mod_cast h
    simp [jsGt, jsLt, toNumber, h6]

/-- Claim C3: for every inbound login, logout, or volume event whose device id
is an integer outside 1..6, the operation fails: no device is mutated and no
broadcast is triggered. -/
theorem C3_out_of_range_rejected (s : ServerState) (now : ℕ) (n : ℤ)
    (hn : n < 1 ∨ 6 < n) (vol avg : JSVal) :
    handleMessage s (.login (.num (n : ℚ))) now = (s, []) ∧
    handleMessage s (.logout (.num (n : ℚ))) now = (s, []) ∧
    handleMessage s (.volume (.num (n : ℚ)) vol avg) now = (s, []) := by
  have hrange : ¬(1 ≤ n ∧ n ≤ 6) := by omega
  have hguard := volumeGuard_int_fails n hn
  refine ⟨?_, ?_, ?_⟩ <;>
    (by_cases hc : s.isServerClosing <;>
      simp [handleMessage, hc, dispatch, jsParseInt_intCast, hrange, updateDevice, hguard])

theorem C3_witness :
    ((7 : ℤ) < 1 ∨ 6 < (7 : ℤ)) ∧
    handleMessage (initState 0) (.login (.num ((7 : ℤ) : ℚ))) 5 = (initState 0, []) ∧
    handleMessage (initState 0) (.logout (.num ((7 : ℤ) : ℚ))) 5 = (initState 0, []) ∧
    handleMessage (initState 0) (.volume (.num ((7 : ℤ) : ℚ)) (.num 10) (.num 10)) 5
      = (initState 0, []) :=
  ⟨by omega, C3_out_of_range_rejected (initState 0) 5 7 (by omega) (.num 10) (.num 10)⟩

/-- Claim C5: an inbound start_monitor event with an integer deviceId triggers
a start_monitor broadcast if and only if the deviceId is 1; any other id is
ignored silently, and the event is ignored entirely once shutdown or
termination has begun.  The registry is never touched. -/
theorem C5_start_monitor_admin_only (s : ServerState) (now : ℕ) (n : ℤ) :
    (s.isServerClosing = false → s.isTerminated = false →
      handleMessage s (.start_monitor (.num (n : ℚ))) now
        = (s, if n = 1 then [OutMsg.start_monitor] else [])) ∧
    (s.isServerClosing = true ∨ s.isTerminated = true →
      handleMessage s (.start_monitor (.num (n : ℚ))) now = (s, [])) := by
  have hp : jsParseInt (.num ((n : ℤ) : ℚ)) = some n := jsParseInt_intCast n
  have hp1 : jsParseInt (.num (1 : ℚ)) = some 1 := by
    have h := jsParseInt_intCast 1
    rwa [Int.cast_one] at h
  constructor
  · intro hc ht
    by_cases h1 : n = 1
    · subst h1
      simp [handleMessage, hc, dispatch, hp1, broadcastStartMonitor, ht]
    · simp [handleMessage, hc, dispatch, hp, h1]
  · intro h
    by_cases hc : s.isServerClosing
    · simp [handleMessage, hc]
    · have ht : s.isTerminated = true := by
        rcases h with h | h
        · exact absurd h hc
        · exact h
      by_cases h1 : n = 1
      · subst h1
        simp [handleMessage, hc, dispatch, hp1, broadcastStartMonitor, ht]
      · simp [handleMessage, hc, dispatch, hp, h1]

theorem C5_witness :
    ((initState 0).isServerClosing = false ∧ (initState 0).isTerminated = false) ∧
    handleMessage (initState 0) (.start_monitor (.num ((1 : ℤ) : ℚ))) 5
      = (initState 0, [OutMsg.start_monitor]) ∧
    handleMessage (initState 0) (.start_monitor (.num ((4 : ℤ) : ℚ))) 5
      = (initState 0, []) :=
  ⟨⟨rfl, rfl⟩,
   by simpa using (C5_start_monitor_admin_only (initState 0) 5 1).1 rfl rfl,
   by simpa using (C5_start_monitor_admin_only (initState 0) 5 4).1 rfl rfl⟩

/-- Claim C9: an inbound volume message whose deviceId passes the numeric
range guard but misses every exact integer map key 1..6 (e.g. the string "3"
or the number 2.5) makes the device lookup yield undefined; the first field
assignment throws, the message handler's try/catch swallows it, no device is
mutated, no broadcast is sent, and the process does not crash. -/
theorem C9_uncoerced_volume_id_caught (s : ServerState) (now : ℕ) (dv vol avg : JSVal)
    (h1 : truthy dv = true) (h2 : jsLt dv (.num 1) = false) (h3 : jsGt dv (.num 6) = false)
    (h4 : mapGetDevice dv = none) :
    dispatch s (.volume dv vol avg) now = (s, [], true) ∧
    handleMessage s (.volume dv vol avg) now = (s, []) := by
  have hu : updateDevice s dv vol avg now = (s, false, true) := by
    simp [updateDevice, h1, h2, h3, h4]
  constructor
  · simp [dispatch, hu]
  · by_cases hc : s.isServerClosing <;> simp [handleMessage, hc, dispatch, hu]

theorem C9_witness :
    (truthy (.str "3") = true ∧ jsLt (.str "3") (.num 1) = false ∧
      jsGt (.str "3") (.num 6) = false ∧ mapGetDevice (.str "3") = none ∧
      dispatch (initState 0) (.volume (.str "3") (.num 10) (.num 10)) 5
        = (initState 0, [], true) ∧
      handleMessage (initState 0) (.volume (.str "3") (.num 10) (.num 10)) 5
        = (initState 0, [])) ∧
    (truthy (.num (5 / 2)) = true ∧ jsLt (.num (5 / 2)) (.num 1) = false ∧
      jsGt (.num (5 / 2)) (.num 6) = false ∧ mapGetDevice (.num (5 / 2)) = none ∧
      dispatch (initState 0) (.volume (.num (5 / 2)) (.num 10) (.num 10)) 5
        = (initState 0, [], true) ∧
      handleMessage (initState 0) (.volume (.num (5 / 2)) (.num 10) (.num 10)) 5
        = (initState 0, [])) :=
  ⟨⟨by decide, by decide, by decide, by decide,
    (C9_uncoerced_volume_id_caught (initState 0) 5 (.str "3") (.num 10) (.num 10)
      (by decide) (by decide) (by decide) (by decide)).1,
    (C9_uncoerced_volume_id_caught (initState 0) 5 (.str "3") (.num 10) (.num 10)
      (by decide) (by decide) (by decide) (by decide)).2⟩,
   ⟨by norm_num [truthy], by norm_num [jsLt, toNumber], by norm_num [jsGt, jsLt, toNumber],
    by norm_num [mapGetDevice],
    (C9_uncoerced_volume_id_caught (initState 0) 5 (.num (5 / 2)) (.num 10) (.num 10)
      (by norm_num [truthy]) (by norm_num [jsLt, toNumber])
      (by norm_num [jsGt, jsLt, toNumber]) (by norm_num [mapGetDevice])).1,
    (C9_uncoerced_volume_id_caught (initState 0) 5 (.num (5 / 2)) (.num 10) (.num 10)
      (by norm_num [truthy]) (by norm_num [jsLt, toNumber])
      (by norm_num [jsGt, jsLt, toNumber]) (by norm_num [mapGetDevice])).2⟩⟩

/-- Claim C8: on an unhandled runtime fault (uncaught exception or unhandled
rejection), if the server is not already closing the shutdown coordinator is
invoked (draining begins), and if it is already closing the process
force-terminates immediately with status 0. -/
theorem C8_fault_handlers (d : DrainState) (clients : List Bool) :
    (d.isServerClosing = false →
      onUncaughtException d clients = Sum.inl (drainEntry d clients) ∧
      onUnhandledRejection d clients = Sum.inl (drainEntry d clients) ∧
      (drainEntry d clients).isServerClosing = true) ∧
    (d.isServerClosing = true →
      onUncaughtException d clients = Sum.inr forceExit ∧
      onUnhandledRejection d clients = Sum.inr forceExit ∧
      forceExit.exitCode = 0) := by
  constructor
  · intro hc
    refine ⟨by simp [onUncaughtException, hc], by simp [onUnhandledRejection, hc], ?_⟩
    by_cases h0 : clients.length = 0 <;> simp [drainEntry, hc, h0]
  · intro hc
    exact ⟨by simp [onUncaughtException, hc], by simp [onUnhandledRejection, hc], rfl⟩

theorem C8_witness :
    (initDrain.isServerClosing = false ∧
      onUncaughtException initDrain [true] = Sum.inl (drainEntry initDrain [true]) ∧
      (drainEntry initDrain [true]).isServerClosing = true) ∧
    ((drainEntry initDrain [true]).isServerClosing = true ∧
      onUncaughtException (drainEntry initDrain [true]) [true] = Sum.inr forceExit ∧
      forceExit.exitCode = 0) :=
  ⟨⟨rfl, ((C8_fault_handlers initDrain [true]).1 rfl).1,
     ((C8_fault_handlers initDrain [true]).1 rfl).2.2⟩,
   ⟨by decide, ((C8_fault_handlers (drainEntry initDrain [true]) [true]).2 (by decide)).1,
     ((C8_fault_handlers (drainEntry initDrain [true]) [true]).2 (by decide)).2.2⟩⟩

/-- Claim C1 counterexample: entry into draining with an empty captured
client list (e.g. console exit before any client connects) calls the
transport stop and returns before the deadline `setTimeout`, so no
CLOSE_TIMEOUT timer is started at that entry. -/
theorem C1_zero_clients_no_timer :
    initDrain.isServerClosing = false ∧
    (drainEntry initDrain []).isServerClosing = true ∧
    (drainEntry initDrain []).timerArmed = false ∧
    closeTimeoutFire (drainEntry initDrain []) = none := by decide

/-- Claim C1 (amended): for every entry into draining that captures at least
one session, the CLOSE_TIMEOUT = 5000 ms deadline timer is started at entry,
and its firing unconditionally force-terminates the process with status 0;
with captured sessions all open and never acknowledging the close, the
graceful stop is never requested at entry, so the timer firing at 5000 ms
exits the process with status 0.  (A zero-client entry instead stops the
transport immediately and arms no timer.) -/
theorem C1_drain_deadline (s : DrainState) (clients : List Bool)
    (hnc : s.isServerClosing = false) (hne : clients ≠ []) :
    (drainEntry s clients).isServerClosing = true ∧
    (drainEntry s clients).timerArmed = true ∧
    (drainEntry s clients).timerDelay = CLOSE_TIMEOUT ∧
    closeTimeoutFire (drainEntry s clients) = some { timerCleared := true, exitCode := 0 } ∧
    (clients.all id = true → (drainEntry s clients).stopRequested = false) := by
  have h0 : ¬clients.length = 0 := by
    simpa using hne
  refine ⟨by simp [drainEntry, hnc, h0], by simp [drainEntry, hnc, h0],
    by simp [drainEntry, hnc, h0], by simp [drainEntry, hnc, h0, closeTimeoutFire, forceExit], ?_⟩
  intro hall
  have hfilter : clients.filter (fun c => !c) = [] := by
    rw [List.filter_eq_nil_iff]
    intro c hmem
    have hcv : c = true := List.all_eq_true.mp hall c hmem
    simp [hcv]
  simp [drainEntry, hnc, h0, hfilter]
  omega

theorem C1_witness :
    (initDrain.isServerClosing = false ∧ ([true, true] : List Bool) ≠ []) ∧
    ((drainEntry initDrain [true, true]).isServerClosing = true ∧
      (drainEntry initDrain [true, true]).timerArmed = true ∧
      (drainEntry initDrain [true, true]).timerDelay = CLOSE_TIMEOUT ∧
      closeTimeoutFire (drainEntry initDrain [true, true])
        = some { timerCleared := true, exitCode := 0 } ∧
      (([true, true] : List Bool).all id = true →
        (drainEntry initDrain [true, true]).stopRequested = false)) :=
  ⟨⟨rfl, by decide⟩, C1_drain_deadline initDrain [true, true] rfl (by decide)⟩

theorem sweepTick_devices (s : ServerState) (now : ℕ) (i : Fin 6) :
    (sweepTick s now).1.devices i =
      (if s.isServerClosing then s.devices i
       else if (s.devices i).con then
         { s.devices i with
           con := decide ((now : ℤ) - ((s.devices i).lastUpdate : ℤ) < (DEVICE_TIMEOUT : ℤ)) }
       else s.devices i) := by
  by_cases hc : s.isServerClosing <;> simp [sweepTick, hc]

theorem sweep_keeps_online (i : Fin 6) (t : ℕ) :
    ∀ (times : List ℕ) (s : ServerState), (s.devices i).con = true →
      (s.devices i).lastUpdate = t →
      (∀ τ ∈ times, (τ : ℤ) < (t : ℤ) + (DEVICE_TIMEOUT : ℤ)) →
      ((times.foldl (fun st τ => (sweepTick st τ).1) s).devices i).con = true ∧
      ((times.foldl (fun st τ => (sweepTick st τ).1) s).devices i).lastUpdate = t
  | [], _, hcon, hlu, _ => ⟨hcon, hlu⟩
  | τ :: rest, s, hcon, hlu, hall => by
    have hτ : (τ : ℤ) < (t : ℤ) + (DEVICE_TIMEOUT : ℤ) := hall τ (List.mem_cons_self τ rest)
    have hstep := sweepTick_devices s τ i
    have hcon' : ((sweepTick s τ).1.devices i).con = true := by
      rw [hstep]
      by_cases hc : s.isServerClosing
      · simp [hc, hcon]
      · simp [hc, hcon, hlu]
        omega
    have hlu' : ((sweepTick s τ).1.devices i).lastUpdate = t := by
      rw [hstep]
      by_cases hc : s.isServerClosing <;> simp [hc, hcon, hlu]
    have hres := sweep_keeps_online i t rest ((sweepTick s τ).1) hcon' hlu'
      (fun τ' h' => hall τ' (List.mem_cons_of_mem _ h'))
    simpa using hres

/-- Claim C2: a scheduled sweep (while not shutting down) flips a device's
online flag from true to false exactly when now - lastSeenAt is at least
DEVICE_TIMEOUT = 10000 ms; the sweep never flips a device from offline to
online; and a device last updated at time t and online stays online through
every sweep occurring strictly before t + 10000 ms. -/
theorem C2_sweep_liveness (s : ServerState) (now : ℕ) (i : Fin 6) :
    (s.isServerClosing = false → (s.devices i).con = true →
      (((sweepTick s now).1.devices i).con = false ↔
        (DEVICE_TIMEOUT : ℤ) ≤ (now : ℤ) - ((s.devices i).lastUpdate : ℤ))) ∧
    ((s.devices i).con = false → ((sweepTick s now).1.devices i).con = false) ∧
    (∀ (t : ℕ) (times : List ℕ), (s.devices i).con = true →
      (s.devices i).lastUpdate = t →
      (∀ τ ∈ times, (τ : ℤ) < (t : ℤ) + (DEVICE_TIMEOUT : ℤ)) →
      ((times.foldl (fun st τ => (sweepTick st τ).1) s).devices i).con = true) := by
  refine ⟨?_, ?_, ?_⟩
  · intro hc hcon
    rw [sweepTick_devices]
    simp [hc, hcon]
  · intro hcon
    rw [sweepTick_devices]
    by_cases hc : s.isServerClosing <;> simp [hc, hcon]
  · intro t times hcon hlu hall
    exact (sweep_keeps_online i t times s hcon hlu hall).1

theorem C2_witness :
    (sOnline.isServerClosing = false ∧ (sOnline.devices 2).con = true ∧
      (sOnline.devices 2).lastUpdate = 5) ∧
    ((sweepTick sOnline 20000).1.devices 2).con = false ∧
    ((sweepTick sOnline 9000).1.devices 2).con = true ∧
    ((([100, 9000] : List ℕ).foldl (fun st τ => (sweepTick st τ).1) sOnline).devices 2).con
      = true :=
  ⟨⟨rfl, rfl, rfl⟩,
   ((C2_sweep_liveness sOnline 20000 2).1 rfl rfl).mpr (by decide),
   by
     have h := (C2_sweep_liveness sOnline 9000 2).1 rfl rfl
     by_contra hcon
     have hfalse : ((sweepTick sOnline 9000).1.devices 2).con = false := by
       revert hcon
       cases ((sweepTick sOnline 9000).1.devices 2).con <;> simp
     have := h.mp hfalse
     revert this
     decide,
   (C2_sweep_liveness sOnline 0 2).2.2 5 [100, 9000] rfl rfl (by decide)⟩

theorem roundedStats_eq (s : ServerState) (data : List Stat)
    (h : roundedStats s = some data) :
    data.length = 6 ∧ ∀ i : Fin 6, data.get? i.val = deviceStat (s.devices i) := by
  rcases hd0 : deviceStat (s.devices 0) with _ | a0
  · rw [roundedStats] at h; simp [hd0] at h
  rcases hd1 : deviceStat (s.devices 1) with _ | a1
  · rw [roundedStats] at h; simp [hd0, hd1] at h
  rcases hd2 : deviceStat (s.devices 2) with _ | a2
  · rw [roundedStats] at h; simp [hd0, hd1, hd2] at h
  rcases hd3 : deviceStat (s.devices 3) with _ | a3
  · rw [roundedStats] at h; simp [hd0, hd1, hd2, hd3] at h
  rcases hd4 : deviceStat (s.devices 4) with _ | a4
  · rw [roundedStats] at h; simp [hd0, hd1, hd2, hd3, hd4] at h
  rcases hd5 : deviceStat (s.devices 5) with _ | a5
  · rw [roundedStats] at h; simp [hd0, hd1, hd2, hd3, hd4, hd5] at h
  rw [roundedStats] at h
  simp [hd0, hd1, hd2, hd3, hd4, hd5] at h
  subst h
  refine ⟨rfl, ?_⟩
  intro i
  fin_cases i <;> simp [hd0, hd1, hd2, hd3, hd4, hd5]

/-- Claim C4: the Termination Reporter is one-shot.  When the per-device
rounded statistics are computable (every stored avg is a number or NaN), the
first invocation flags termination and broadcasts exactly one end_statistics
event carrying the six rounded (max, average, min) records taken from the
current registry; every later invocation is a no-op, so two invocations
produce exactly one end_statistics broadcast. -/
theorem C4_reporter_one_shot (s : ServerState) (data : List Stat)
    (h1 : s.isTerminated = false) (h2 : roundedStats s = some data) :
    handleTerminateSignal s
      = ({ s with isTerminated := true }, [.endStatistics data], false) ∧
    data.length = 6 ∧
    (∀ i : Fin 6, data.get? i.val = deviceStat (s.devices i)) ∧
    handleTerminateSignal { s with isTerminated := true }
      = ({ s with isTerminated := true }, [], false) ∧
    ((handleTerminateSignal s).2.1
      ++ (handleTerminateSignal { s with isTerminated := true }).2.1).countP isEndStats
      = 1 := by
  have hext := roundedStats_eq s data h2
  have hsame : roundedStats { s with isTerminated := true } = some data := h2
  have hfirst : handleTerminateSignal s
      = ({ s with isTerminated := true }, [.endStatistics data], false) := by
    rw [handleTerminateSignal]
    simp [h1, hsame]
  have hsecond : handleTerminateSignal { s with isTerminated := true }
      = ({ s with isTerminated := true }, [], false) := by
    rw [handleTerminateSignal]
    simp
  refine ⟨hfirst, hext.1, hext.2, hsecond, ?_⟩
  rw [hfirst, hsecond]
  simp [isEndStats]

theorem C4_witness :
    ((initState 0).isTerminated = false ∧ roundedStats (initState 0) = some initStats) ∧
    handleTerminateSignal (initState 0)
      = ({ initState 0 with isTerminated := true }, [.endStatistics initStats], false) ∧
    handleTerminateSignal { initState 0 with isTerminated := true }
      = ({ initState 0 with isTerminated := true }, [], false) ∧
    ((handleTerminateSignal (initState 0)).2.1
      ++ (handleTerminateSignal { initState 0 with isTerminated := true }).2.1).countP
        isEndStats = 1 := by
  have r0 : round2 0 = 0 := by rw [round2]; norm_num
  have r100 : round2 100 = 100 := by rw [round2]; norm_num
  have hstats : roundedStats (initState 0) = some initStats := by
    simp [roundedStats, deviceStat, initState, initDevice, toFixedParse, r0, r100, initStats]
    decide
  have happ := C4_reporter_one_shot (initState 0) initStats rfl hstats
  exact ⟨⟨rfl, hstats⟩, happ.1, happ.2.2.2.1, happ.2.2.2.2⟩

/-- Claim C10 counterexample: after an ordinary inbound volume message whose
avg field is the string "oops" (stored verbatim), a terminate message makes
the reporter throw on avg.toFixed(2) — but the message handler's try/catch
catches it, so message handling returns normally (no broadcast, flag left
set) and the process-level uncaught-fault branch is never invoked for
inbound traffic; the claim's asserted reachability of that branch is false. -/
theorem C10_counterexample :
    s10.isTerminated = false ∧
    ((s10.devices 1).avg = JSVal.str "oops") ∧
    dispatch s10 .terminate 0 = ({ s10 with isTerminated := true }, [], true) ∧
    handleMessage s10 .terminate 0 = ({ s10 with isTerminated := true }, []) := by
  refine ⟨rfl, rfl, rfl, rfl⟩

theorem roundedStats_none_of_bad (s : ServerState) (i : Fin 6)
    (h : toFixedParse ((s.devices i).avg) = none) : roundedStats s = none := by
  have hi : deviceStat (s.devices i) = none := by simp [deviceStat, h]
  rw [roundedStats]
  rcases hd0 : deviceStat (s.devices 0) with _ | a0 <;>
  rcases hd1 : deviceStat (s.devices 1) with _ | a1 <;>
  rcases hd2 : deviceStat (s.devices 2) with _ | a2 <;>
  rcases hd3 : deviceStat (s.devices 3) with _ | a3 <;>
  rcases hd4 : deviceStat (s.devices 4) with _ | a4 <;>
  rcases hd5 : deviceStat (s.devices 5) with _ | a5 <;>
    simp [hd0, hd1, hd2, hd3, hd4, hd5]
  fin_cases i <;> simp_all

/-- Claim C10 (amended): the volume path stores the client-supplied avg field
verbatim with no parsing or validation, so a later terminate event can make
the reporter's avg.toFixed(2) call throw; the exception escapes the reporter
but is caught by the message handler's try/catch, so no end_statistics is
broadcast while monitoringTerminated stays set, and the uncaught-fault branch
is not reached from inbound traffic. -/
theorem C10_avg_unvalidated :
    (∀ (s : ServerState) (dv vol avg : JSVal) (now : ℕ) (i : Fin 6),
      (!truthy dv || jsLt dv (.num 1) || jsGt dv (.num 6)) = false →
      mapGetDevice dv = some i →
      ((updateDevice s dv vol avg now).1.devices i).avg = avg) ∧
    (∀ (s : ServerState) (now : ℕ) (i : Fin 6),
      s.isTerminated = false → toFixedParse ((s.devices i).avg) = none →
      dispatch s .terminate now = ({ s with isTerminated := true }, [], true) ∧
      (s.isServerClosing = false →
        handleMessage s .terminate now = ({ s with isTerminated := true }, []))) := by
  constructor
  · intro s dv vol avg now i hg hget
    simp [updateDevice, hg, hget, Function.update_apply]
  · intro s now i hterm hbad
    have hnone : roundedStats { s with isTerminated := true } = none :=
      roundedStats_none_of_bad _ i hbad
    have hd : dispatch s .terminate now = ({ s with isTerminated := true }, [], true) := by
      rw [dispatch, handleTerminateSignal]
      simp [hterm, hnone]
    exact ⟨hd, fun hc => by simp [handleMessage, hc, hd]⟩

theorem C10_witness :
    ((!truthy (JSVal.num 2) || jsLt (.num 2) (.num 1) || jsGt (.num 2) (.num 6)) = false ∧
      mapGetDevice (.num 2) = some 1 ∧
      ((updateDevice (initState 0) (.num 2) (.num 10) (.str "oops") 0).1.devices 1).avg
        = JSVal.str "oops") ∧
    (s10.isTerminated = false ∧ toFixedParse ((s10.devices 1).avg) = none ∧
      dispatch s10 .terminate 7 = ({ s10 with isTerminated := true }, [], true) ∧
      handleMessage s10 .terminate 7 = ({ s10 with isTerminated := true }, [])) :=
  ⟨⟨by decide, by decide,
    (C10_avg_unvalidated.1 (initState 0) (.num 2) (.num 10) (.str "oops") 0 1
      (by decide) (by decide))⟩,
   ⟨rfl, rfl,
    (C10_avg_unvalidated.2 s10 7 1 rfl rfl).1,
    (C10_avg_unvalidated.2 s10 7 1 rfl rfl).2 rfl⟩⟩

theorem DevInv_same_fields {d d' : Device} (h1 : d'.min = d.min) (h2 : d'.vol = d.vol)
    (h3 : d'.max = d.max) (h : DevInv d) : DevInv d' := by
  obtain ⟨mn, v, mx, e1, e2, e3, l1, l2⟩ := h
  exact ⟨mn, v, mx, by rw [h1, e1], by rw [h2, e2], by rw [h3, e3], l1, l2⟩

theorem DevInv_after_reading (d : Device) (q mn mx : ℚ) (a : JSVal) (t : ℕ)
    (hmn : d.min = some mn) (hmx : d.max = some mx) :
    DevInv { d with vol := some q, avg := a, max := jsMax d.max (some q),
                    min := jsMin d.min (some q), con := true, lastUpdate := t } := by
  refine ⟨Min.min mn q, q, Max.max mx q, ?_, rfl, ?_, min_le_right mn q, le_max_right mx q⟩
  · simp [jsMin, hmn]
  · simp [jsMax, hmx]

theorem handleTerminateSignal_devices (s : ServerState) :
    (handleTerminateSignal s).1.devices = s.devices := by
  rw [handleTerminateSignal]
  cases ht : s.isTerminated
  · simp only [ht]
    cases hr : roundedStats { s with isTerminated := true } <;> simp [hr]
  · simp [ht]

theorem applyOp_device_shape (s : ServerState) (op : Op) (i : Fin 6) (hop : GoodOp op) :
    (((applyOp s op).devices i).min = (s.devices i).min ∧
     ((applyOp s op).devices i).vol = (s.devices i).vol ∧
     ((applyOp s op).devices i).max = (s.devices i).max) ∨
    (∃ q, ((applyOp s op).devices i).min = jsMin ((s.devices i).min) (some q) ∧
          ((applyOp s op).devices i).vol = some q ∧
          ((applyOp s op).devices i).max = jsMax ((s.devices i).max) (some q)) := by
  cases op with
  | msg m now =>
    simp only [applyOp]
    by_cases hc : s.isServerClosing
    · left; simp [handleMessage, hc]
    · cases m with
      | login dv =>
        left
        rcases hp : jsParseInt dv with _ | n
        · simp [handleMessage, hc, dispatch, hp]
        · by_cases hr : 1 ≤ n ∧ n ≤ 6
          · rcases hg : mapGetDevice (.num (n : ℚ)) with _ | j
            · simp [handleMessage, hc, dispatch, hp, hr, hg]
            · by_cases hij : i = j
              · subst hij
                simp [handleMessage, hc, dispatch, hp, hr, hg, Function.update_apply]
              · simp [handleMessage, hc, dispatch, hp, hr, hg, Function.update_apply, hij]
          · simp [handleMessage, hc, dispatch, hp, hr]
      | logout dv =>
        left
        rcases hp : jsParseInt dv with _ | n
        · simp [handleMessage, hc, dispatch, hp]
        · by_cases hr : 1 ≤ n ∧ n ≤ 6
          · rcases hg : mapGetDevice (.num (n : ℚ)) with _ | j
            · simp [handleMessage, hc, dispatch, hp, hr, hg]
            · by_cases hij : i = j
              · subst hij
                simp [handleMessage, hc, dispatch, hp, hr, hg, Function.update_apply]
              · simp [handleMessage, hc, dispatch, hp, hr, hg, Function.update_apply, hij]
          · simp [handleMessage, hc, dispatch, hp, hr]
      | volume dv vol avg =>
        obtain ⟨q, hq⟩ := hop
        by_cases hg : (!truthy dv || jsLt dv (.num 1) || jsGt dv (.num 6)) = true
        · left; simp [handleMessage, hc, dispatch, updateDevice, hg]
        · have hg' : (!truthy dv || jsLt dv (.num 1) || jsGt dv (.num 6)) = false := by
            revert hg
            cases (!truthy dv || jsLt dv (.num 1) || jsGt dv (.num 6)) <;> simp
          rcases hm : mapGetDevice dv with _ | j
          · left; simp [handleMessage, hc, dispatch, updateDevice, hg', hm]
          · by_cases hij : i = j
            · subst hij
              right
              refine ⟨q, ?_, ?_, ?_⟩ <;>
                simp [handleMessage, hc, dispatch, updateDevice, hg', hm, hq,
                  Function.update_apply]
            · left
              simp [handleMessage, hc, dispatch, updateDevice, hg', hm,
                Function.update_apply, hij]
      | terminate =>
        left
        rcases hts : handleTerminateSignal s with ⟨s2, outs2, t2⟩
        have h1 : (handleMessage s .terminate now).1 = s2 := by
          simp [handleMessage, hc, dispatch, hts]
        have h2 : s2.devices = s.devices := by
          have hd := handleTerminateSignal_devices s
          rw [hts] at hd
          exact hd
        rw [h1, h2]
        exact ⟨rfl, rfl, rfl⟩
      | start_monitor dv =>
        left
        by_cases h1 : jsParseInt dv = some 1 <;> simp [handleMessage, hc, dispatch, h1]
      | unknown =>
        left
        simp [handleMessage, hc, dispatch]
  | set d v now =>
    simp only [applyOp]
    by_cases hc : s.isServerClosing
    · left; simp [consoleSet, hc]
    · rcases d with _ | dn
      · left; simp [consoleSet, hc]
      · rcases v with _ | vq
        · left; simp [consoleSet, hc]
        · by_cases hg : 1 ≤ dn ∧ dn ≤ 6 ∧ 0 ≤ vq ∧ vq ≤ 100
          · by_cases hij : i = (⟨dn.toNat - 1, by omega⟩ : Fin 6)
            · subst hij
              right
              refine ⟨vq, ?_, ?_, ?_⟩ <;>
                simp [consoleSet, hc, hg, Function.update_apply]
            · left
              simp [consoleSet, hc, hg, Function.update_apply, hij]
          · left; simp [consoleSet, hc, hg]
  | sweep now =>
    left
    simp only [applyOp]
    rw [sweepTick_devices]
    by_cases hc : s.isServerClosing
    · simp [hc]
    · by_cases hcon : (s.devices i).con <;> simp [hc, hcon]

theorem DevInv_preserved (s : ServerState) (op : Op) (i : Fin 6) (hop : GoodOp op)
    (h : DevInv (s.devices i)) : DevInv ((applyOp s op).devices i) := by
  rcases applyOp_device_shape s op i hop with ⟨h1, h2, h3⟩ | ⟨q, h1, h2, h3⟩
  · exact DevInv_same_fields h1 h2 h3 h
  · obtain ⟨mn, v, mx, e1, e2, e3, l1, l2⟩ := h
    rw [e1] at h1
    rw [e3] at h3
    refine ⟨Min.min mn q, q, Max.max mx q, ?_, h2, ?_, min_le_right mn q, le_max_right mx q⟩
    · rw [h1]; simp [jsMin]
    · rw [h3]; simp [jsMax]

theorem DevInv_preserved_list (i : Fin 6) :
    ∀ (ops : List Op) (s : ServerState), (∀ op ∈ ops, GoodOp op) →
      DevInv (s.devices i) → DevInv ((applyOps s ops).devices i)
  | [], _, _, h => h
  | op :: rest, s, hops, h => by
    have h1 := DevInv_preserved s op i (hops op (List.mem_cons_self _ _)) h
    have h2 := DevInv_preserved_list i rest (applyOp s op)
      (fun o ho => hops o (List.mem_cons_of_mem _ ho)) h1
    simpa [applyOps] using h2

/-- Claim C6: once a reading has been recorded for a device — by a volume
event with numeric value or by a console set — the invariant
min <= currentLevel <= max holds for it, and it is preserved by every
subsequent operation (readings with numeric values, login, logout, console
set, sweep demotion, terminate, start_monitor). -/
theorem C6_reading_invariant :
    (∀ (s : ServerState) (now : ℕ) (i : Fin 6) (dv vol avg : JSVal) (q : ℚ),
      s.isServerClosing = false →
      (!truthy dv || jsLt dv (.num 1) || jsGt dv (.num 6)) = false →
      mapGetDevice dv = some i → jsParseFloat vol = some q →
      (∃ mn, (s.devices i).min = some mn) → (∃ mx, (s.devices i).max = some mx) →
      DevInv ((handleMessage s (.volume dv vol avg) now).1.devices i)) ∧
    (∀ (s : ServerState) (now : ℕ) (i : Fin 6) (v : ℚ),
      s.isServerClosing = false → 0 ≤ v → v ≤ 100 →
      (∃ mn, (s.devices i).min = some mn) → (∃ mx, (s.devices i).max = some mx) →
      DevInv ((consoleSet s (some ((i : ℕ) + 1 : ℤ)) (some v) now).1.devices i)) ∧
    (∀ (s : ServerState) (op : Op) (i : Fin 6), GoodOp op → DevInv (s.devices i) →
      DevInv ((applyOp s op).devices i)) ∧
    (∀ (s : ServerState) (ops : List Op) (i : Fin 6), (∀ op ∈ ops, GoodOp op) →
      DevInv (s.devices i) → DevInv ((applyOps s ops).devices i)) ∧
    (∀ (s : ServerState) (now : ℕ) (i : Fin 6) (dv vol avg : JSVal) (q : ℚ) (ops : List Op),
      s.isServerClosing = false →
      (!truthy dv || jsLt dv (.num 1) || jsGt dv (.num 6)) = false →
      mapGetDevice dv = some i → jsParseFloat vol = some q →
      (∃ mn, (s.devices i).min = some mn) → (∃ mx, (s.devices i).max = some mx) →
      (∀ op ∈ ops, GoodOp op) →
      DevInv ((applyOps (handleMessage s (.volume dv vol avg) now).1 ops).devices i)) := by
  have hvol : ∀ (s : ServerState) (now : ℕ) (i : Fin 6) (dv vol avg : JSVal) (q : ℚ),
      s.isServerClosing = false →
      (!truthy dv || jsLt dv (.num 1) || jsGt dv (.num 6)) = false →
      mapGetDevice dv = some i → jsParseFloat vol = some q →
      (∃ mn, (s.devices i).min = some mn) → (∃ mx, (s.devices i).max = some mx) →
      DevInv ((handleMessage s (.volume dv vol avg) now).1.devices i) := by
    intro s now i dv vol avg q hc hg hget hq hmn hmx
    obtain ⟨mn, hmn⟩ := hmn
    obtain ⟨mx, hmx⟩ := hmx
    have heq : (handleMessage s (.volume dv vol avg) now).1.devices i
        = { s.devices i with
              vol := some q, avg := avg,
              max := jsMax (s.devices i).max (some q),
              min := jsMin (s.devices i).min (some q),
              con := true, lastUpdate := now } := by
      simp [handleMessage, hc, dispatch, updateDevice, hg, hget, hq, Function.update_apply]
    rw [heq]
    exact DevInv_after_reading _ q mn mx avg now hmn hmx
  refine ⟨hvol, ?_, DevInv_preserved, ?_, ?_⟩
  · intro s now i v hc h0 h100 hmn hmx
    obtain ⟨mn, hmn⟩ := hmn
    obtain ⟨mx, hmx⟩ := hmx
    have hg : 1 ≤ ((i : ℕ) + 1 : ℤ) ∧ ((i : ℕ) + 1 : ℤ) ≤ 6 ∧ 0 ≤ v ∧ v ≤ 100 :=
      ⟨by omega, by have := i.isLt; omega, h0, h100⟩
    have hidx : (⟨(((i : ℕ) + 1 : ℤ)).toNat - 1, by omega⟩ : Fin 6) = i := by
      apply Fin.ext
      simp
    have heq : (consoleSet s (some ((i : ℕ) + 1 : ℤ)) (some v) now).1.devices i
        = { s.devices i with
              vol := some v, avg := jsAvgSet (s.devices i).avg v,
              max := jsMax (s.devices i).max (some v),
              min := jsMin (s.devices i).min (some v),
              con := true, lastUpdate := now } := by
      simp [consoleSet, hc, hg, Function.update_apply, hidx]
    rw [heq]
    exact DevInv_after_reading _ v mn mx _ now hmn hmx
  · intro s ops i hops h
    exact DevInv_preserved_list i ops s hops h
  · intro s now i dv vol avg q ops hc hg hget hq hmn hmx hops
    exact DevInv_preserved_list i ops _ hops
      (hvol s now i dv vol avg q hc hg hget hq hmn hmx)

theorem C6_witness :
    ((initState 0).isServerClosing = false ∧
      (!truthy (JSVal.num 2) || jsLt (.num 2) (.num 1) || jsGt (.num 2) (.num 6)) = false ∧
      mapGetDevice (.num 2) = some 1 ∧ jsParseFloat (.num 55) = some 55 ∧
      ((initState 0).devices 1).min = some 100 ∧ ((initState 0).devices 1).max = some 0) ∧
    DevInv ((applyOps
      (handleMessage (initState 0) (.volume (.num 2) (.num 55) (.num 55)) 3).1
      [Op.msg (.login (.num 3)) 7, Op.sweep 20000, Op.msg (.logout (.num 2)) 8]).devices 1) :=
  ⟨⟨rfl, by decide, by decide, rfl, rfl, rfl⟩,
   C6_reading_invariant.2.2.2.2 (initState 0) 3 1 (.num 2) (.num 55) (.num 55) 55
     [Op.msg (.login (.num 3)) 7, Op.sweep 20000, Op.msg (.logout (.num 2)) 8]
     rfl (by decide) (by decide) rfl ⟨100, rfl⟩ ⟨0, rfl⟩
     (by intro op hop
         simp only [List.mem_cons, List.not_mem_nil, or_false] at hop
         rcases hop with h | h | h <;> subst h <;> trivial)⟩

theorem NonnegReadingOp_good (op : Op) (h : NonnegReadingOp op) : GoodOp op := by
  cases op with
  | msg m now =>
    cases m with
    | volume dv vol avg =>
      obtain ⟨q, hq, _⟩ := h
      exact ⟨q, hq⟩
    | login dv => exact h.elim
    | logout dv => exact h.elim
    | terminate => exact h.elim
    | start_monitor dv => exact h.elim
    | unknown => exact h.elim
  | set d v now => trivial
  | sweep now => exact h.elim

theorem watermark_fold (i : Fin 6) :
    ∀ (ops : List Op) (s : ServerState), (∀ op ∈ ops, NonnegReadingOp op) →
      ∀ (m₀ n₀ : ℚ), (s.devices i).max = some m₀ → (s.devices i).min = some n₀ →
      ∃ m₁ n₁, ((applyOps s ops).devices i).max = some m₁ ∧ m₀ ≤ m₁ ∧
               ((applyOps s ops).devices i).min = some n₁ ∧ n₁ ≤ n₀
  | [], _, _, m₀, n₀, hmax, hmin => ⟨m₀, n₀, hmax, le_refl _, hmin, le_refl _⟩
  | op :: rest, s, hops, m₀, n₀, hmax, hmin => by
    have hop := hops op (List.mem_cons_self _ _)
    have hrest : ∀ o ∈ rest, NonnegReadingOp o := fun o ho => hops o (List.mem_cons_of_mem _ ho)
    rcases applyOp_device_shape s op i (NonnegReadingOp_good op hop) with ⟨h1, h2, h3⟩ | ⟨q, h1, h2, h3⟩
    · have hmax' : ((applyOp s op).devices i).max = some m₀ := by rw [h3, hmax]
      have hmin' : ((applyOp s op).devices i).min = some n₀ := by rw [h1, hmin]
      have hres := watermark_fold i rest (applyOp s op) hrest m₀ n₀ hmax' hmin'
      simpa [applyOps] using hres
    · have hmax' : ((applyOp s op).devices i).max = some (Max.max m₀ q) := by
        rw [h3, hmax]; simp [jsMax]
      have hmin' : ((applyOp s op).devices i).min = some (Min.min n₀ q) := by
        rw [h1, hmin]; simp [jsMin]
      obtain ⟨m₁, n₁, ha, hb, hcc, hd⟩ :=
        watermark_fold i rest (applyOp s op) hrest (Max.max m₀ q) (Min.min n₀ q) hmax' hmin'
      refine ⟨m₁, n₁, by simpa [applyOps] using ha,
        le_trans (le_max_left _ _) hb, by simpa [applyOps] using hcc,
        le_trans hd (min_le_left _ _)⟩

/-- Claim C7: across any sequence of readings with non-negative numeric
values (network volume events or console sets) applied to a device, the
device's max is monotonically non-decreasing and its min is monotonically
non-increasing. -/
theorem C7_watermarks_monotone (s : ServerState) (i : Fin 6) (ops : List Op)
    (hops : ∀ op ∈ ops, NonnegReadingOp op) (m₀ n₀ : ℚ)
    (hmax : (s.devices i).max = some m₀) (hmin : (s.devices i).min = some n₀) :
    ∃ m₁ n₁, ((applyOps s ops).devices i).max = some m₁ ∧ m₀ ≤ m₁ ∧
             ((applyOps s ops).devices i).min = some n₁ ∧ n₁ ≤ n₀ :=
  watermark_fold i ops s hops m₀ n₀ hmax hmin

theorem C7_witness :
    ((∀ op ∈ ([Op.msg (.volume (.num 2) (.num 55) (.num 55)) 1,
               Op.msg (.volume (.num 2) (.num 80) (.num (135 / 2))) 2] : List Op),
        NonnegReadingOp op) ∧
      ((initState 0).devices 1).max = some 0 ∧ ((initState 0).devices 1).min = some 100) ∧
    (∃ m₁ n₁,
      ((applyOps (initState 0)
          [Op.msg (.volume (.num 2) (.num 55) (.num 55)) 1,
           Op.msg (.volume (.num 2) (.num 80) (.num (135 / 2))) 2]).devices 1).max
        = some m₁ ∧ (0 : ℚ) ≤ m₁ ∧
      ((applyOps (initState 0)
          [Op.msg (.volume (.num 2) (.num 55) (.num 55)) 1,
           Op.msg (.volume (.num 2) (.num 80) (.num (135 / 2))) 2]).devices 1).min
        = some n₁ ∧ n₁ ≤ (100 : ℚ)) := by
  have hops : ∀ op ∈ ([Op.msg (.volume (.num 2) (.num 55) (.num 55)) 1,
      Op.msg (.volume (.num 2) (.num 80) (.num (135 / 2))) 2] : List Op),
      NonnegReadingOp op := by
    intro op hop
    simp only [List.mem_cons, List.not_mem_nil, or_false] at hop
    rcases hop with h | h
    · subst h; exact ⟨55, rfl, by norm_num⟩
    · subst h; exact ⟨80, rfl, by norm_num⟩
  exact ⟨⟨hops, rfl, rfl⟩,
    C7_watermarks_monotone (initState 0) 1 _ hops 0 100 rfl rfl⟩

end VolMon
